import Mathlib

/-!
# Verification of `yahoo_historical/fetch.py`

A shallow embedding of the single source file `yahoo_historical/fetch.py`
together with models of the library behavior it relies on (`pandas` frame
construction and timestamp formatting, JSON values, the `requests` HTTP
collaborator) and of the two constants imported from the package's
`constants.py` (modelled from the spec, as that file is not part of the
provided sources).

Machine conventions: Python numbers are modelled as rationals (`ℚ`), Python
exceptions as `Except` errors, the HTTP collaborator as an oracle
`String → Json` passed in explicitly, and the ambient environment's local
timezone as an explicit `tzOffset : Int` parameter so that
timezone-(in)dependence can be stated.
-/

namespace YahooHistorical

/-- A scalar value held in one cell of a pandas column: a missing value
(`None`/`NaN`/`NaT`), a number, a string, or a (timezone-naive, UTC-based)
datetime produced by `pd.to_datetime(..., unit='s')`, represented by its
seconds since the UNIX epoch. -/
inductive Cell where
  | null
  | num (q : ℚ)
  | str (s : String)
  | dt (secs : ℚ)
deriving DecidableEq

/-- A JSON value, as produced by `response.json()`.  Objects are ordered
association lists (parsed JSON objects have distinct keys; lookup takes the
first binding, as a Python `dict` would hold only one). -/
inductive Json where
  | null
  | num (q : ℚ)
  | str (s : String)
  | arr (xs : List Json)
  | obj (fields : List (String × Json))

/-- Python exceptions that can escape the normalization step `conv_df`.
`lengthMismatch` is the pandas `ValueError: All arrays must be of the same
length`; `valueError` covers other `ValueError`s (e.g. `NaT.strftime`);
`keyError`/`indexError`/`typeError`/`attributeError` model the corresponding
Python lookup failures. -/
inductive ConvError where
  | keyError (key : String)
  | indexError
  | typeError (msg : String)
  | attributeError (msg : String)
  | lengthMismatch
  | valueError (msg : String)
deriving DecidableEq

/-- `j[key]`: subscripting a JSON object, raising `KeyError` when the key is
absent and `TypeError` when `j` is not an object. -/
def Json.getItem (j : Json) (key : String) : Except ConvError Json :=
  match j with
  | .obj fields =>
    match fields.lookup key with
    | some v => .ok v
    | none => .error (.keyError key)
  | _ => .error (.typeError "object is not subscriptable")

/-- `j[i]`: subscripting a JSON array by position. -/
def Json.getIdx (j : Json) (i : Nat) : Except ConvError Json :=
  match j with
  | .arr xs =>
    match xs.get? i with
    | some v => .ok v
    | none => .error .indexError
  | _ => .error (.typeError "object is not subscriptable")

/-- `j.get(key, dflt)`: the defaulting dictionary lookup used on the
quote-indicator object (`indicators.get('close', [])`), raising
`AttributeError` when `j` is not an object. -/
def Json.dictGet (j : Json) (key : String) (dflt : Json) : Except ConvError Json :=
  match j with
  | .obj fields => .ok ((fields.lookup key).getD dflt)
  | _ => .error (.attributeError "object has no attribute get")

/-- Elementwise fallible map over a list: the first failure propagates
(used to model per-element library loops such as column conversion and
`Series.apply`). -/
def mapExcept {α β : Type} (f : α → Except ConvError β) : List α → Except ConvError (List β)
  | [] => .ok []
  | a :: as => do
    let b ← f a
    let bs ← mapExcept f as
    return b :: bs

/-- One JSON element converted to a pandas cell.  This model restricts
columns to flat scalar data (the response shape in scope: numbers, nulls,
strings); nested arrays/objects inside a column are out of scope and are
rejected. -/
def Json.toCell : Json → Except ConvError Cell
  | .null => .ok .null
  | .num q => .ok (.num q)
  | .str s => .ok (.str s)
  | _ => .error (.typeError "nested data not supported")

/-- A Python list drawn from the JSON payload, converted to a pandas column
(as `pd.DataFrame` does for each dictionary value). -/
def Json.asColumn (j : Json) : Except ConvError (List Cell) :=
  match j with
  | .arr xs => mapExcept Json.toCell xs
  | _ => .error (.typeError "column data must be a list")

/-- A pandas `DataFrame`: an ordered list of named columns. -/
structure DataFrame where
  cols : List (String × List Cell)
deriving DecidableEq

/-- Number of rows: the length of the first column (0 for an empty frame). -/
def DataFrame.nrows (df : DataFrame) : Nat :=
  match df.cols with
  | [] => 0
  | col :: _ => col.2.length

/-- `pd.DataFrame({...})`: builds a frame from named columns, raising
`ValueError: All arrays must be of the same length` unless every column has
the same length. -/
def DataFrame.build (cols : List (String × List Cell)) : Except ConvError DataFrame :=
  match cols with
  | [] => .ok ⟨[]⟩
  | col :: rest =>
    if rest.all (fun d => d.2.length == col.2.length) then .ok ⟨col :: rest⟩
    else .error .lengthMismatch

/-- `df[name]`: reading one column, `KeyError` when absent. -/
def DataFrame.getCol (df : DataFrame) (name : String) : Except ConvError (List Cell) :=
  match df.cols.lookup name with
  | some cells => .ok cells
  | none => .error (.keyError name)

/-- `df[name] = cells`: replaces the column in place when the name exists,
otherwise appends it as the last column (pandas column-assignment order). -/
def DataFrame.setCol (df : DataFrame) (name : String) (cells : List Cell) : DataFrame :=
  if df.cols.any (fun col => col.1 == name) then
    ⟨df.cols.map (fun col => if col.1 == name then (name, cells) else col)⟩
  else ⟨df.cols ++ [(name, cells)]⟩

/-- `del df[name]`: removes the named column. -/
def DataFrame.delCol (df : DataFrame) (name : String) : DataFrame :=
  ⟨df.cols.filter (fun col => col.1 != name)⟩

/-- `df.columns.tolist()`. -/
def DataFrame.colNames (df : DataFrame) : List String :=
  df.cols.map Prod.fst

/-- `df[names]`: column selection/reordering (every requested name is
present on the path exercised by the source). -/
def DataFrame.select (df : DataFrame) (names : List String) : DataFrame :=
  ⟨names.map (fun n => (n, (df.cols.lookup n).getD []))⟩

/-- The Python slice rotation `cols[-1:] + cols[:-1]`: the last element
moves to the front, the rest keep their relative order. -/
def rotateLastToFront (l : List String) : List String :=
  l.drop (l.length - 1) ++ l.take (l.length - 1)

/-! ## UTC calendar-date conversion

Model of the pandas behavior of
`pd.to_datetime(column, unit='s')` followed by `.strftime('%Y-%m-%d')`:
a UNIX timestamp in seconds is interpreted under the UTC epoch convention
(`to_datetime` with `unit='s'` yields timezone-naive UTC-based timestamps
and never consults the process's local timezone), and formatted as the
zero-padded `YYYY-MM-DD` string of its UTC calendar date. -/

/-- Days-since-epoch to proleptic-Gregorian (year, month, day); the standard
civil-from-days computation.  All intermediate quantities after the floored
era division are non-negative. -/
def civilFromDays (z0 : Int) : Int × Int × Int :=
  let z := z0 + 719468
  let era := Int.fdiv z 146097
  let doe := z - era * 146097
  let yoe := (doe - doe / 1460 + doe / 36524 - doe / 146096) / 365
  let y := yoe + era * 400
  let doy := doe - (365 * yoe + yoe / 4 - yoe / 100)
  let mp := (5 * doy + 2) / 153
  let d := doy - (153 * mp + 2) / 5 + 1
  let m := mp + (if mp < 10 then 3 else -9)
  (y + (if m ≤ 2 then 1 else 0), m, d)

/-- Zero-pad to two digits (strftime `%m` / `%d`). -/
def pad2 (n : Int) : String :=
  if 0 ≤ n ∧ n < 10 then "0" ++ toString n else toString n

/-- Zero-pad to four digits (strftime `%Y`). -/
def pad4 (n : Int) : String :=
  if 0 ≤ n ∧ n < 10 then "000" ++ toString n
  else if 0 ≤ n ∧ n < 100 then "00" ++ toString n
  else if 0 ≤ n ∧ n < 1000 then "0" ++ toString n
  else toString n

/-- The `YYYY-MM-DD` string of the UTC calendar date of a UNIX timestamp
given in (possibly fractional) seconds. -/
def strftimeYmd (secs : ℚ) : String :=
  let days := Int.fdiv (Rat.floor secs) 86400
  let ymd := civilFromDays days
  pad4 ymd.1 ++ "-" ++ pad2 ymd.2.1 ++ "-" ++ pad2 ymd.2.2

/-- `pd.to_datetime(_, unit='s')` applied to one cell: numeric seconds
become datetimes, nulls become `NaT`. -/
def cellToDatetime : Cell → Except ConvError Cell
  | .num q => .ok (.dt q)
  | .null => .ok .null
  | _ => .error (.typeError "to_datetime: invalid cell")

/-- The `.apply(lambda x: x.strftime('%Y-%m-%d'))` step applied to one
cell; `NaT.strftime` raises `ValueError` in pandas. -/
def cellStrftime : Cell → Except ConvError Cell
  | .dt secs => .ok (.str (strftimeYmd secs))
  | .null => .error (.valueError "NaTType does not support strftime")
  | _ => .error (.typeError "strftime: not a datetime")

/-! ## Serialization: `DataFrame.to_json`

`to_json()` with its default orientation (`'columns'`) renders the frame as
a JSON object mapping each column name to an object that maps the row label
(the default `RangeIndex`, rendered `"0"`, `"1"`, …) to the cell value.  The
model works at the level of JSON values: the textual encoding produced by
`to_json` parses back to exactly this value, so "serialize then parse" is
modelled by `to_json` itself. -/

/-- One cell rendered into JSON (`to_json` emits datetimes as epoch
milliseconds; such cells do not occur in the frames the source returns). -/
def Cell.toJson : Cell → Json
  | .null => .null
  | .num q => .num q
  | .str s => .str s
  | .dt secs => .num (secs * 1000)

/-- Model of pandas `DataFrame.to_json()` (default orient `'columns'`) at
the JSON-value level. -/
def DataFrame.to_json (df : DataFrame) : Json :=
  .obj (df.cols.map (fun col =>
    (col.1, Json.obj (col.2.enum.map (fun p => (toString p.1, p.2.toJson))))))

/-! ## Constants imported from `constants.py`

`fetch.py` imports `API_URL`, `DATE_INTERVALS` and `ONE_DAY_INTERVAL` from
the package's `constants.py`, which is not among the provided sources; they
are modelled from the spec. -/

/-- Modelled from the spec: `DATE_INTERVALS` (missing `constants.py`) is
"a fixed closed set of accepted interval strings (e.g., daily/weekly/monthly
granularities)". -/
def DATE_INTERVALS : List String := ["1d", "1wk", "1mo"]

/-- Modelled from the spec: `ONE_DAY_INTERVAL` (missing `constants.py`) is
"the daily value", the default interval. -/
def ONE_DAY_INTERVAL : String := "1d"

/-- Modelled from the spec: `API_URL` (missing `constants.py`) is a fixed
template — `GET <base>?period1=<start>&period2=<end>&interval=<interval>&`
`events=<event>` against a fixed host/path parameterized by the ticker in
the path — into which the five values are substituted positionally
(`%`-formatting renders each with `str()`). -/
def API_URL (ticker period1 period2 interval events : String) : String :=
  "https://query1.finance.yahoo.com/v8/finance/chart/" ++ ticker ++
    "?period1=" ++ period1 ++ "&period2=" ++ period2 ++
    "&interval=" ++ interval ++ "&events=" ++ events

/-! ## The normalization step `conv_df` (fetch.py lines 10-42) -/

/-- Lines 11-22 plus the per-column list conversion performed inside
`pd.DataFrame`: extract the timestamp array and the quote-indicator object
from the fixed nested path, then each indicator sub-array by key with an
empty-list default, yielding the six columns
(timestamp, Open, High, Low, Close, Volume) in assembly order. -/
def extractColumns (resp : Json) :
    Except ConvError (List Cell × List Cell × List Cell × List Cell × List Cell × List Cell) := do
  let chart ← resp.getItem "chart"
  let result ← chart.getItem "result"
  let result0 ← result.getIdx 0
  let timestampsJ ← result0.getItem "timestamp"
  let indicatorsAll ← result0.getItem "indicators"
  let quoteJ ← indicatorsAll.getItem "quote"
  let indicators ← quoteJ.getIdx 0
  let closeJ ← indicators.dictGet "close" (.arr [])
  let openJ ← indicators.dictGet "open" (.arr [])
  let highJ ← indicators.dictGet "high" (.arr [])
  let lowJ ← indicators.dictGet "low" (.arr [])
  let volumeJ ← indicators.dictGet "volume" (.arr [])
  let timestamps ← timestampsJ.asColumn
  let open_ ← openJ.asColumn
  let high ← highJ.asColumn
  let low ← lowJ.asColumn
  let close ← closeJ.asColumn
  let volume ← volumeJ.asColumn
  return (timestamps, open_, high, low, close, volume)

/-- Lines 25-42: assemble the frame in order
timestamp, Open, High, Low, Close, Volume; derive the `time` column with
`pd.to_datetime(..., unit='s')`; derive `Date` by `strftime('%Y-%m-%d')`;
delete `time` and `timestamp`; rotate the last column (`Date`) to the
front (`cols[-1:] + cols[:-1]`).  The `tzOffset` parameter is the process's
local timezone; the computation never consults it because `to_datetime`
with `unit='s'` is UTC-based. -/
def buildFrame (tzOffset : Int)
    (timestamps open_ high low close volume : List Cell) :
    Except ConvError DataFrame := do
  let df ← DataFrame.build
    [("timestamp", timestamps), ("Open", open_), ("High", high),
     ("Low", low), ("Close", close), ("Volume", volume)]
  let tsCol ← df.getCol "timestamp"
  let timeCol ← mapExcept cellToDatetime tsCol
  let df := df.setCol "time" timeCol
  let timeCells ← df.getCol "time"
  let dateCol ← mapExcept cellStrftime timeCells
  let df := df.setCol "Date" dateCol
  let df := df.delCol "time"
  let df := df.delCol "timestamp"
  let cols := rotateLastToFront df.colNames
  return df.select cols

/-- `conv_df` (lines 10-42): `resp.json()` is the `Json` argument; extract
the parallel arrays, then assemble, date-derive and reorder. -/
def conv_df (tzOffset : Int) (resp : Json) : Except ConvError DataFrame := do
  let (timestamps, open_, high, low, close, volume) ← extractColumns resp
  buildFrame tzOffset timestamps open_ high low close volume

/-! ## The `Fetcher` class (fetch.py lines 44-109) -/

/-- Model of Python `int()` applied to a numeric value: truncation toward
zero. -/
def pyInt (q : ℚ) : Int := Int.tdiv q.num q.den

/-- Model of Python `str.upper()`: uppercase each character (ASCII tickers
in scope). -/
def pyUpper (s : String) : String := ⟨s.data.map Char.toUpper⟩

/-- The instance state set by `__init__`: the four query parameters. -/
structure Fetcher where
  ticker : String
  interval : String
  start : Int
  end_ : Int
deriving DecidableEq

/-- `Fetcher.__init__` (lines 45-58).  `moduleLoadTime` is the clock value
at the moment the class body was evaluated (import time): Python evaluates
the default `end=time.time()` exactly once, then.  `nowAtConstruction` is
the clock value when `__init__` itself runs; the constructor body never
reads the clock, so this parameter is unused.  `endArg`/`intervalArg` are
`none` when the caller omits them. -/
def Fetcher.init (moduleLoadTime : ℚ) (nowAtConstruction : ℚ) (ticker : String)
    (start : ℚ) (endArg : Option ℚ) (intervalArg : Option String) : Fetcher :=
  { ticker := pyUpper ticker
    interval := intervalArg.getD ONE_DAY_INTERVAL
    start := pyInt start
    end_ := pyInt (endArg.getD moduleLoadTime) }

/-- `create_url` (lines 60-69): positional substitution into `API_URL`. -/
def Fetcher.create_url (f : Fetcher) (event : String) : String :=
  API_URL f.ticker (toString f.start) (toString f.end_) f.interval event

/-- The errors a fetch operation can surface: the interval-validation
`ValueError` raised by `_get` itself (the spec's `InvalidArgument`), or an
exception propagating out of `conv_df`. -/
inductive FetchError where
  | invalidInterval (msg : String)
  | convError (e : ConvError)

/-- A fetch operation's return value: the frame itself, or its `to_json()`
serialization. -/
inductive FetchOutput where
  | table (df : DataFrame)
  | serialized (j : Json)

/-- The observable outcome of one `_get` call: the returned value or raised
error, the URLs passed to the HTTP collaborator in order, and the state of
the instance after the call (state-passing translation: the method bodies
contain no assignment to `self`, so every exit carries the entry state). -/
structure FetchResult where
  result : Except FetchError FetchOutput
  requests : List String
  post : Fetcher

/-- `_get` (lines 71-97): validate the interval against `DATE_INTERVALS`
(raising before any network activity, with a message listing the valid
choices), build the URL, perform the GET via the `http` collaborator,
normalize with `conv_df`, and return the frame or its serialization. -/
def Fetcher._get (f : Fetcher) (http : String → Json) (tzOffset : Int)
    (event : String) (as_dataframe : Bool) : FetchResult :=
  if f.interval ∉ DATE_INTERVALS then
    { result := .error (.invalidInterval
        ("Incorrect interval: valid intervals are " ++ String.intercalate ", " DATE_INTERVALS))
      requests := []
      post := f }
  else
    let url := f.create_url event
    let data := http url
    match conv_df tzOffset data with
    | .error e => { result := .error (.convError e), requests := [url], post := f }
    | .ok dataframe =>
      if as_dataframe then
        { result := .ok (.table dataframe), requests := [url], post := f }
      else
        { result := .ok (.serialized dataframe.to_json), requests := [url], post := f }

/-- `get_historical` (lines 99-101). -/
def Fetcher.get_historical (f : Fetcher) (http : String → Json) (tzOffset : Int)
    (as_dataframe : Bool) : FetchResult :=
  f._get http tzOffset "history" as_dataframe

/-- `get_dividends` (lines 103-105). -/
def Fetcher.get_dividends (f : Fetcher) (http : String → Json) (tzOffset : Int)
    (as_dataframe : Bool) : FetchResult :=
  f._get http tzOffset "div" as_dataframe

/-- `get_splits` (lines 107-109). -/
def Fetcher.get_splits (f : Fetcher) (http : String → Json) (tzOffset : Int)
    (as_dataframe : Bool) : FetchResult :=
  f._get http tzOffset "split" as_dataframe

/-! ## Canonical response builders (for stating the response-shape claims) -/

/-- True of cells that can appear in a raw JSON payload (everything except
the internal datetime cells). -/
def Cell.scalar : Cell → Bool
  | .dt _ => false
  | _ => true

/-- A quote-indicator object holding the sub-arrays that are present
(`none` models an absent key). -/
def mkQuote (open_ high low close volume : Option (List Cell)) : Json :=
  .obj (([("open", open_), ("high", high), ("low", low),
          ("close", close), ("volume", volume)]).filterMap
    (fun p => p.2.map (fun cells => (p.1, Json.arr (cells.map Cell.toJson)))))

/-- A response with the spec's nested shape:
`chart.result[0].timestamp` and `chart.result[0].indicators.quote[0]`. -/
def mkChartResp (ts : List ℚ) (quote : Json) : Json :=
  .obj [("chart", .obj [("result", .arr [
    .obj [("timestamp", .arr (ts.map Json.num)),
          ("indicators", .obj [("quote", .arr [quote])])]])])]

/-! ## Helper lemmas -/

theorem mapExcept_ok_length {α β : Type} (f : α → Except ConvError β) :
    ∀ (l : List α) (l2 : List β), mapExcept f l = .ok l2 → l2.length = l.length := by
  intro l
  induction l with
  | nil => intro l2 h; simp [mapExcept] at h; simp [← h]
  | cons a as ih =>
    intro l2 h
    simp only [mapExcept, bind, Except.bind] at h
    cases hfa : f a with
    | error e => simp [hfa] at h
    | ok b =>
      simp only [hfa] at h
      cases has : mapExcept f as with
      | error e => simp [has] at h
      | ok bs =>
        simp [has, pure, Except.pure] at h
        subst h
        simp [ih bs has]

theorem mapExcept_ok_get {α β : Type} (f : α → Except ConvError β) :
    ∀ (l : List α) (l2 : List β), mapExcept f l = .ok l2 →
      ∀ (i : Nat) (a : α), l.get? i = some a →
        ∃ b, f a = .ok b ∧ l2.get? i = some b := by
  intro l
  induction l with
  | nil => intro l2 _ i a ha; simp at ha
  | cons x xs ih =>
    intro l2 h i a ha
    simp only [mapExcept, bind, Except.bind] at h
    cases hfx : f x with
    | error e => simp [hfx] at h
    | ok b =>
      simp only [hfx] at h
      cases hxs : mapExcept f xs with
      | error e => simp [hxs] at h
      | ok bs =>
        simp [hxs, pure, Except.pure] at h
        subst h
        cases i with
        | zero =>
          simp at ha
          subst ha
          exact ⟨b, hfx, rfl⟩
        | succ j =>
          simp only [List.get?_cons_succ] at ha
          simp only [List.get?_cons_succ]
          exact ih bs hxs j a ha

theorem asColumn_map_toJson (cells : List Cell) (h : cells.all Cell.scalar = true) :
    Json.asColumn (.arr (cells.map Cell.toJson)) = .ok cells := by
  induction cells with
  | nil => rfl
  | cons c cs ih =>
    simp only [List.all_cons, Bool.and_eq_true] at h
    have hc : c.toJson.toCell = .ok c := by
      cases c <;> simp_all [Cell.scalar, Cell.toJson, Json.toCell]
    have ihc := ih h.2
    simp only [Json.asColumn] at ihc ⊢
    simp [mapExcept, hc, ihc, bind, Except.bind, pure, Except.pure]

theorem asColumn_num (ts : List ℚ) :
    Json.asColumn (.arr (ts.map Json.num)) = .ok (ts.map Cell.num) := by
  induction ts with
  | nil => rfl
  | cons t rest ih =>
    simp only [Json.asColumn] at ih ⊢
    simp [mapExcept, Json.toCell, ih, bind, Except.bind, pure, Except.pure]

theorem mapExcept_toDatetime_num (ts : List ℚ) :
    mapExcept cellToDatetime (ts.map Cell.num) = .ok (ts.map Cell.dt) := by
  induction ts with
  | nil => rfl
  | cons t rest ih =>
    simp [mapExcept, cellToDatetime, ih, bind, Except.bind, pure, Except.pure]

theorem mapExcept_strftime_dt (ts : List ℚ) :
    mapExcept cellStrftime (ts.map Cell.dt) =
      .ok (ts.map (fun t => Cell.str (strftimeYmd t))) := by
  induction ts with
  | nil => rfl
  | cons t rest ih =>
    simp [mapExcept, cellStrftime, ih, bind, Except.bind, pure, Except.pure]


/-! ## Computation and characterization lemmas for `conv_df` -/

theorem extractColumns_canonical (ts : List ℚ) (o h l c v : List Cell)
    (hso : o.all Cell.scalar = true) (hsh : h.all Cell.scalar = true)
    (hsl : l.all Cell.scalar = true) (hsc : c.all Cell.scalar = true)
    (hsv : v.all Cell.scalar = true) :
    extractColumns (mkChartResp ts (mkQuote (some o) (some h) (some l) (some c) (some v))) =
      .ok (ts.map Cell.num, o, h, l, c, v) := by
  simp [extractColumns, mkChartResp, mkQuote, Json.getItem, Json.getIdx, Json.dictGet,
    List.lookup, bind, Except.bind, pure, Except.pure,
    asColumn_num, asColumn_map_toJson, hso, hsh, hsl, hsc, hsv]

theorem buildFrame_ok (tz : Int) (ts o h l c v : List Cell) (df : DataFrame)
    (hok : buildFrame tz ts o h l c v = .ok df) :
    ∃ timeCol dateCol,
      mapExcept cellToDatetime ts = .ok timeCol ∧
      mapExcept cellStrftime timeCol = .ok dateCol ∧
      o.length = ts.length ∧ h.length = ts.length ∧ l.length = ts.length ∧
      c.length = ts.length ∧ v.length = ts.length ∧
      df = ⟨[("Date", dateCol), ("Open", o), ("High", h), ("Low", l),
             ("Close", c), ("Volume", v)]⟩ := by
  simp only [buildFrame, DataFrame.build, bind, Except.bind, List.all_cons, List.all_nil,
    Bool.and_true, Bool.and_eq_true, beq_iff_eq] at hok
  by_cases hlen : o.length = ts.length ∧ h.length = ts.length ∧ l.length = ts.length ∧
      c.length = ts.length ∧ v.length = ts.length
  · obtain ⟨hlo, hlh, hll, hlc, hlv⟩ := hlen
    rw [if_pos ⟨hlo, hlh, hll, hlc, hlv⟩] at hok
    cases hdt : mapExcept cellToDatetime ts with
    | error e => simp [DataFrame.getCol, List.lookup, hdt] at hok
    | ok timeCol =>
      cases hsf : mapExcept cellStrftime timeCol with
      | error e =>
        simp [DataFrame.getCol, DataFrame.setCol, List.lookup, hdt, hsf] at hok
      | ok dateCol =>
        refine ⟨timeCol, dateCol, rfl, hsf, hlo, hlh, hll, hlc, hlv, ?_⟩
        simp [DataFrame.getCol, DataFrame.setCol, DataFrame.delCol, DataFrame.colNames,
          DataFrame.select, rotateLastToFront, List.lookup, hdt, hsf, pure, Except.pure] at hok
        exact hok.symm
  · rw [if_neg hlen] at hok
    cases hok

theorem buildFrame_num (tz : Int) (ts : List ℚ) (o h l c v : List Cell)
    (hlo : o.length = ts.length) (hlh : h.length = ts.length)
    (hll : l.length = ts.length) (hlc : c.length = ts.length)
    (hlv : v.length = ts.length) :
    buildFrame tz (ts.map Cell.num) o h l c v =
      .ok ⟨[("Date", ts.map (fun t => Cell.str (strftimeYmd t))), ("Open", o),
            ("High", h), ("Low", l), ("Close", c), ("Volume", v)]⟩ := by
  simp [buildFrame, DataFrame.build, bind, Except.bind, pure, Except.pure,
    hlo, hlh, hll, hlc, hlv, DataFrame.getCol, DataFrame.setCol, DataFrame.delCol,
    DataFrame.colNames, DataFrame.select, rotateLastToFront, List.lookup,
    mapExcept_toDatetime_num, mapExcept_strftime_dt]

theorem conv_df_bind (tz : Int) (resp : Json) :
    conv_df tz resp = (extractColumns resp).bind
      (fun t => buildFrame tz t.1 t.2.1 t.2.2.1 t.2.2.2.1 t.2.2.2.2.1 t.2.2.2.2.2) := by
  simp only [conv_df, bind, Except.bind]

/-! ## Decimal digits contain no decimal point -/

theorem digitChar_ne_dot (n : Nat) (h : n < 10) : Nat.digitChar n ≠ '.' := by
  interval_cases n <;> decide

theorem toDigitsCore_ne_dot (fuel : Nat) :
    ∀ (n : Nat) (ds : List Char), (∀ ch ∈ ds, ch ≠ '.') →
      ∀ ch ∈ Nat.toDigitsCore 10 fuel n ds, ch ≠ '.' := by
  induction fuel with
  | zero => intro n ds hds; simpa [Nat.toDigitsCore] using hds
  | succ f ih =>
    intro n ds hds ch hch
    simp only [Nat.toDigitsCore] at hch
    split at hch
    · rcases List.mem_cons.mp hch with h1 | h1
      · subst h1
        exact digitChar_ne_dot _ (Nat.mod_lt n (by norm_num))
      · exact hds _ h1
    · refine ih _ _ ?_ ch hch
      intro ch2 hch2
      rcases List.mem_cons.mp hch2 with h1 | h1
      · subst h1
        exact digitChar_ne_dot _ (Nat.mod_lt n (by norm_num))
      · exact hds _ h1

theorem nat_repr_ne_dot (n : Nat) : ∀ ch ∈ (Nat.repr n).data, ch ≠ '.' := by
  intro ch hch
  simp only [Nat.repr, Nat.toDigits, List.asString] at hch
  exact toDigitsCore_ne_dot (n + 1) n [] (by intro c hc; cases hc) ch hch

theorem int_toString_ne_dot (n : Int) : ∀ ch ∈ (toString n).data, ch ≠ '.' := by
  cases n with
  | ofNat m => simpa [toString] using nat_repr_ne_dot m
  | negSucc m =>
    intro ch hch
    simp only [toString, String.data_append] at hch
    rcases List.mem_append.mp hch with h1 | h1
    · simp at h1
      subst h1
      decide
    · exact nat_repr_ne_dot _ ch h1

/-! ## `pyInt` is truncation toward zero -/

theorem pyInt_eq_floor (q : ℚ) (h : 0 ≤ q) : pyInt q = ⌊q⌋ := by
  rw [Rat.floor_def, pyInt]
  exact Int.tdiv_eq_ediv (Rat.num_nonneg.mpr h) (by positivity)

theorem pyInt_neg (q : ℚ) : pyInt (-q) = -pyInt q := by
  simp [pyInt, Int.neg_tdiv]

theorem pyInt_eq_ceil (q : ℚ) (h : q ≤ 0) : pyInt q = ⌈q⌉ := by
  have h2 : pyInt (-q) = ⌊-q⌋ := pyInt_eq_floor (-q) (by linarith)
  have h3 : pyInt q = -pyInt (-q) := by rw [pyInt_neg]; ring
  rw [h3, h2, Int.floor_neg]
  ring

/-! ## `_get` characterization lemmas -/

theorem get_post (f : Fetcher) (http : String → Json) (tz : Int) (event : String) (b : Bool) :
    (f._get http tz event b).post = f := by
  rw [Fetcher._get]
  split
  · rfl
  · dsimp only
    cases conv_df tz (http (f.create_url event)) with
    | error e => rfl
    | ok df => cases b <;> rfl

theorem get_invalid (f : Fetcher) (http : String → Json) (tz : Int) (event : String) (b : Bool)
    (hbad : f.interval ∉ DATE_INTERVALS) :
    f._get http tz event b =
      ⟨.error (.invalidInterval ("Incorrect interval: valid intervals are " ++
          String.intercalate ", " DATE_INTERVALS)), [], f⟩ := by
  rw [Fetcher._get, if_pos hbad]

theorem get_valid_not_invalid (f : Fetcher) (http : String → Json) (tz : Int) (event : String)
    (b : Bool) (hgood : f.interval ∈ DATE_INTERVALS) (msg : String) :
    (f._get http tz event b).result ≠ .error (.invalidInterval msg) := by
  rw [Fetcher._get, if_neg (by simpa using hgood)]
  dsimp only
  cases conv_df tz (http (f.create_url event)) with
  | error e => simp
  | ok df => cases b <;> simp

/-! ## Sample data used by the concrete instantiations -/

/-- The spec's end-to-end scenario response: one timestamp 1609459200 with
open 130, high 133, low 129, close 132, volume 1000000. -/
def sampleResp : Json :=
  mkChartResp [1609459200]
    (mkQuote (some [Cell.num 130]) (some [Cell.num 133]) (some [Cell.num 129])
      (some [Cell.num 132]) (some [Cell.num 1000000]))

/-- The normalized table the sample response produces. -/
def sampleCols : List (String × List Cell) :=
  [("Date", [Cell.str "2021-01-01"]), ("Open", [Cell.num 130]), ("High", [Cell.num 133]),
   ("Low", [Cell.num 129]), ("Close", [Cell.num 132]), ("Volume", [Cell.num 1000000])]


/-! ## Claim theorems -/

/-- Claim C1: for every response whose `chart.result[0]` holds a timestamp
array of length N and open/high/low/close/volume arrays of length N, the
normalization `conv_df` returns a table with exactly N rows, columns in the
exact order Date, Open, High, Low, Close, Volume, the Date of row i being
the `YYYY-MM-DD` calendar-date conversion of the i-th timestamp, and each
indicator value of row i taken from position i of its array. -/
theorem C1_normalized_table (tz : Int) (N : Nat) (ts : List ℚ) (o h l c v : List Cell)
    (hts : ts.length = N)
    (hlo : o.length = N) (hlh : h.length = N) (hll : l.length = N)
    (hlc : c.length = N) (hlv : v.length = N)
    (hso : o.all Cell.scalar = true) (hsh : h.all Cell.scalar = true)
    (hsl : l.all Cell.scalar = true) (hsc : c.all Cell.scalar = true)
    (hsv : v.all Cell.scalar = true) :
    conv_df tz (mkChartResp ts (mkQuote (some o) (some h) (some l) (some c) (some v))) =
      .ok ⟨[("Date", ts.map (fun t => Cell.str (strftimeYmd t))), ("Open", o),
            ("High", h), ("Low", l), ("Close", c), ("Volume", v)]⟩ ∧
    DataFrame.colNames ⟨[("Date", ts.map (fun t => Cell.str (strftimeYmd t))), ("Open", o),
            ("High", h), ("Low", l), ("Close", c), ("Volume", v)]⟩ =
      ["Date", "Open", "High", "Low", "Close", "Volume"] ∧
    DataFrame.nrows ⟨[("Date", ts.map (fun t => Cell.str (strftimeYmd t))), ("Open", o),
            ("High", h), ("Low", l), ("Close", c), ("Volume", v)]⟩ = N := by
  refine ⟨?_, by simp [DataFrame.colNames], by simp [DataFrame.nrows, hts]⟩
  rw [conv_df_bind, extractColumns_canonical ts o h l c v hso hsh hsl hsc hsv]
  exact buildFrame_num tz ts o h l c v (hlo.trans hts.symm) (hlh.trans hts.symm)
    (hll.trans hts.symm) (hlc.trans hts.symm) (hlv.trans hts.symm)

/-- Witness for C1: the spec's end-to-end scenario — a single timestamp
1609459200 with fully populated arrays yields exactly the one-row table
whose Date is "2021-01-01". -/
theorem C1_normalized_table_witness :
    ([(1609459200 : ℚ)].length = 1) ∧
    conv_df 0 sampleResp = .ok ⟨sampleCols⟩ ∧
    DataFrame.colNames ⟨sampleCols⟩ = ["Date", "Open", "High", "Low", "Close", "Volume"] ∧
    DataFrame.nrows ⟨sampleCols⟩ = 1 := by
  have h := C1_normalized_table 0 1 [1609459200] [Cell.num 130] [Cell.num 133]
    [Cell.num 129] [Cell.num 132] [Cell.num 1000000]
    rfl rfl rfl rfl rfl rfl rfl rfl rfl rfl rfl
  exact ⟨rfl, h.1, h.2.1, h.2.2⟩

/-- Claim C2 (counter-evidence): with two timestamps and every indicator key
except `volume` present, the normalization does NOT return a 2-row table —
the `.get('volume', [])` default produces an empty array and the frame
construction then fails with the pandas length-mismatch `ValueError`, so a
missing indicator key fails the whole call for N > 0. -/
theorem C2_missing_key_fails_whole_call :
    conv_df 0 (mkChartResp [1609459200, 1609545600]
      (mkQuote (some [Cell.num 130, Cell.num 131]) (some [Cell.num 133, Cell.num 134])
        (some [Cell.num 129, Cell.num 128]) (some [Cell.num 132, Cell.num 133]) none)) =
      .error .lengthMismatch := by
  rfl

/-- Claim C3: when the stored interval is not in `DATE_INTERVALS`, each of
the three fetch operations returns the invalid-interval error whose message
enumerates the accepted values, and the HTTP collaborator is never invoked
(the request log is empty); when the interval is accepted, no fetch
operation produces an invalid-interval error. -/
theorem C3_interval_validated_before_network (f : Fetcher) (http : String → Json)
    (tz : Int) (b : Bool) :
    (f.interval ∉ DATE_INTERVALS →
      (f.get_historical http tz b).result = .error (.invalidInterval
          ("Incorrect interval: valid intervals are " ++ String.intercalate ", " DATE_INTERVALS)) ∧
      (f.get_historical http tz b).requests = [] ∧
      (f.get_dividends http tz b).result = .error (.invalidInterval
          ("Incorrect interval: valid intervals are " ++ String.intercalate ", " DATE_INTERVALS)) ∧
      (f.get_dividends http tz b).requests = [] ∧
      (f.get_splits http tz b).result = .error (.invalidInterval
          ("Incorrect interval: valid intervals are " ++ String.intercalate ", " DATE_INTERVALS)) ∧
      (f.get_splits http tz b).requests = []) ∧
    (f.interval ∈ DATE_INTERVALS →
      (∀ msg, (f.get_historical http tz b).result ≠ .error (.invalidInterval msg)) ∧
      (∀ msg, (f.get_dividends http tz b).result ≠ .error (.invalidInterval msg)) ∧
      (∀ msg, (f.get_splits http tz b).result ≠ .error (.invalidInterval msg))) := by
  constructor
  · intro hbad
    rw [Fetcher.get_historical, Fetcher.get_dividends, Fetcher.get_splits]
    rw [get_invalid f http tz "history" b hbad, get_invalid f http tz "div" b hbad,
      get_invalid f http tz "split" b hbad]
    exact ⟨rfl, rfl, rfl, rfl, rfl, rfl⟩
  · intro hgood
    exact ⟨fun msg => get_valid_not_invalid f http tz "history" b hgood msg,
      fun msg => get_valid_not_invalid f http tz "div" b hgood msg,
      fun msg => get_valid_not_invalid f http tz "split" b hgood msg⟩

/-- Witness for C3: interval "5x" is rejected with the enumerating message
and no request is issued; interval "1d" never produces the
invalid-interval error. -/
theorem C3_interval_validated_before_network_witness :
    ("5x" ∉ DATE_INTERVALS) ∧
    ((Fetcher.mk "AAPL" "5x" 0 1).get_historical (fun _ => Json.null) 0 true).result =
      .error (.invalidInterval "Incorrect interval: valid intervals are 1d, 1wk, 1mo") ∧
    ((Fetcher.mk "AAPL" "5x" 0 1).get_historical (fun _ => Json.null) 0 true).requests = [] ∧
    ("1d" ∈ DATE_INTERVALS) ∧
    (∀ msg, ((Fetcher.mk "AAPL" "1d" 0 1).get_historical (fun _ => Json.null) 0 true).result ≠
      .error (.invalidInterval msg)) := by
  have hbad := (C3_interval_validated_before_network (Fetcher.mk "AAPL" "5x" 0 1)
    (fun _ => Json.null) 0 true).1 (by decide)
  have hgood := (C3_interval_validated_before_network (Fetcher.mk "AAPL" "1d" 0 1)
    (fun _ => Json.null) 0 true).2 (by decide)
  exact ⟨by decide, hbad.1, hbad.2.1, by decide, hgood.1⟩

/-- Claim C4 (counter-evidence): the `end` default is the clock value frozen
when the class body was evaluated at import time, not the construction-time
clock — two clients constructed at different times with `end` omitted store
the same (import-time) end value. -/
theorem C4_default_end_frozen_at_import (loadT now1 now2 : ℚ) (t1 t2 : String)
    (s1 s2 : ℚ) (itv1 itv2 : Option String) :
    (Fetcher.init loadT now1 t1 s1 none itv1).end_ = pyInt loadT ∧
    (Fetcher.init loadT now2 t2 s2 none itv2).end_ =
      (Fetcher.init loadT now1 t1 s1 none itv1).end_ :=
  ⟨rfl, rfl⟩

/-- Claim C5: numeric start/end values, including fractional ones, are
stored as integers obtained by truncation toward zero (floor for
non-negative, ceiling for non-positive — not rounding), and the URL embeds
exactly the decimal renderings of those integers, which contain no decimal
point. -/
theorem C5_time_params_truncated (loadT now : ℚ) (ticker : String) (s e : ℚ)
    (itv : Option String) (event : String) :
    (Fetcher.init loadT now ticker s (some e) itv).start = pyInt s ∧
    (Fetcher.init loadT now ticker s (some e) itv).end_ = pyInt e ∧
    (0 ≤ s → pyInt s = ⌊s⌋) ∧ (s ≤ 0 → pyInt s = ⌈s⌉) ∧
    (0 ≤ e → pyInt e = ⌊e⌋) ∧ (e ≤ 0 → pyInt e = ⌈e⌉) ∧
    ((Fetcher.init loadT now ticker s (some e) itv).create_url event =
      API_URL (pyUpper ticker) (toString (pyInt s)) (toString (pyInt e))
        (itv.getD ONE_DAY_INTERVAL) event) ∧
    (∀ ch ∈ (toString (pyInt s)).data, ch ≠ '.') ∧
    (∀ ch ∈ (toString (pyInt e)).data, ch ≠ '.') :=
  ⟨rfl, rfl, pyInt_eq_floor s, pyInt_eq_ceil s, pyInt_eq_floor e, pyInt_eq_ceil e,
    rfl, int_toString_ne_dot (pyInt s), int_toString_ne_dot (pyInt e)⟩

/-- Witness for C5: the spec's example 1700000000.7 is stored truncated to
1700000000, whose rendering contains no decimal point. -/
theorem C5_time_params_truncated_witness :
    ((0 : ℚ) ≤ 1700000000.7) ∧
    (Fetcher.init 0 0 "aapl" 1700000000.7 (some 1700000000.7) none).start =
      pyInt 1700000000.7 ∧
    pyInt (1700000000.7 : ℚ) = ⌊(1700000000.7 : ℚ)⌋ ∧
    pyInt (1700000000.7 : ℚ) = 1700000000 ∧
    (∀ ch ∈ (toString (pyInt (1700000000.7 : ℚ))).data, ch ≠ '.') := by
  obtain ⟨h1, _, h3, _, _, _, _, h8, _⟩ :=
    C5_time_params_truncated 0 0 "aapl" 1700000000.7 1700000000.7 none "history"
  refine ⟨by norm_num, h1, h3 (by norm_num), ?_, h8⟩
  norm_num [pyInt]
  decide

/-- Claim C6: `create_url` is a pure function of the four stored fields and
the event — equal inputs give the identical URL string, with no side
effects or failure modes (it is a total function into `String`) — and the
ticker embedded in the URL is the uppercased form of the constructor
argument, so the originally supplied casing does not matter. -/
theorem C6_create_url_pure :
    (∀ (f g : Fetcher) (event : String),
       f.ticker = g.ticker → f.start = g.start → f.end_ = g.end_ → f.interval = g.interval →
         f.create_url event = g.create_url event) ∧
    (∀ (loadT now : ℚ) (ticker : String) (s : ℚ) (e : Option ℚ) (itv : Option String)
       (event : String),
       (Fetcher.init loadT now ticker s e itv).create_url event =
         API_URL (pyUpper ticker) (toString (pyInt s)) (toString (pyInt (e.getD loadT)))
           (itv.getD ONE_DAY_INTERVAL) event) ∧
    (∀ (loadT now : ℚ) (t1 t2 : String) (s : ℚ) (e : Option ℚ) (itv : Option String)
       (event : String),
       pyUpper t1 = pyUpper t2 →
         (Fetcher.init loadT now t1 s e itv).create_url event =
           (Fetcher.init loadT now t2 s e itv).create_url event) := by
  refine ⟨?_, ?_, ?_⟩
  · intro f g event h1 h2 h3 h4
    simp [Fetcher.create_url, API_URL, h1, h2, h3, h4]
  · intro loadT now ticker s e itv event
    rfl
  · intro loadT now t1 t2 s e itv event h
    simp [Fetcher.create_url, API_URL, Fetcher.init, h]

/-- Witness for C6: concrete clients — the URL of a client built from
"aapl" embeds "AAPL" and coincides with the URL of a client built from
"AaPl". -/
theorem C6_create_url_pure_witness :
    ((Fetcher.mk "AAPL" "1d" 5 9).create_url "history" =
      (Fetcher.mk "AAPL" "1d" 5 9).create_url "history") ∧
    ((Fetcher.init 0 0 "aapl" 5 (some 9) none).create_url "history" =
      API_URL "AAPL" "5" "9" "1d" "history") ∧
    ((Fetcher.init 0 0 "aapl" 5 (some 9) none).create_url "history" =
      (Fetcher.init 0 0 "AaPl" 5 (some 9) none).create_url "history") := by
  have h := C6_create_url_pure
  refine ⟨h.1 (Fetcher.mk "AAPL" "1d" 5 9) (Fetcher.mk "AAPL" "1d" 5 9) "history"
    rfl rfl rfl rfl, ?_, h.2.2 0 0 "aapl" "AaPl" 5 (some 9) none "history" (by decide)⟩
  exact h.2.1 0 0 "aapl" 5 (some 9) none "history"

/-- Claim C7: serializing a normalized table with `to_json` (the non-table
output mode) and reading the serialization back yields the same column
names (Date, Open, High, Low, Close, Volume) and, in every column, exactly
one entry per row of the in-memory table. -/
theorem C7_to_json_roundtrip (tz : Int) (resp : Json) (df : DataFrame)
    (hok : conv_df tz resp = .ok df) :
    ∃ inner : List (String × Json),
      df.to_json = Json.obj inner ∧
      inner.map Prod.fst = df.colNames ∧
      df.colNames = ["Date", "Open", "High", "Low", "Close", "Volume"] ∧
      ∀ p ∈ inner, ∃ fields : List (String × Json),
        p.2 = Json.obj fields ∧ fields.length = df.nrows := by
  rw [conv_df_bind] at hok
  cases hext : extractColumns resp with
  | error e => rw [hext] at hok; cases hok
  | ok t =>
    rw [hext] at hok
    simp only [Except.bind] at hok
    obtain ⟨ts, o, h, l, c, v⟩ := t
    obtain ⟨timeCol, dateCol, hdt, hsf, hlo, hlh, hll, hlc, hlv, hdfeq⟩ :=
      buildFrame_ok tz ts o h l c v df hok
    have hdl : dateCol.length = ts.length := by
      rw [mapExcept_ok_length cellStrftime timeCol dateCol hsf,
        mapExcept_ok_length cellToDatetime ts timeCol hdt]
    subst hdfeq
    refine ⟨_, rfl, by simp [DataFrame.to_json, DataFrame.colNames],
      by simp [DataFrame.colNames], ?_⟩
    intro p hp
    have hn : DataFrame.nrows ⟨[("Date", dateCol), ("Open", o), ("High", h), ("Low", l),
        ("Close", c), ("Volume", v)]⟩ = dateCol.length := rfl
    simp only [DataFrame.to_json, List.map_cons, List.map_nil, List.mem_cons,
      List.not_mem_nil, or_false] at hp
    rcases hp with hp | hp | hp | hp | hp | hp <;> subst hp <;>
      exact ⟨_, rfl, by simp [hn, hdl, hlo, hlh, hll, hlc, hlv, List.enum_length]⟩

/-- Witness for C7: the sample one-row table round-trips with the six
column names and one entry per column. -/
theorem C7_to_json_roundtrip_witness :
    conv_df 0 sampleResp = .ok ⟨sampleCols⟩ ∧
    (∃ inner : List (String × Json), DataFrame.to_json ⟨sampleCols⟩ = Json.obj inner ∧
      inner.map Prod.fst = DataFrame.colNames ⟨sampleCols⟩ ∧
      DataFrame.colNames ⟨sampleCols⟩ = ["Date", "Open", "High", "Low", "Close", "Volume"] ∧
      ∀ p ∈ inner, ∃ fields : List (String × Json),
        p.2 = Json.obj fields ∧ fields.length = DataFrame.nrows ⟨sampleCols⟩) :=
  ⟨by rfl, C7_to_json_roundtrip 0 sampleResp ⟨sampleCols⟩ (by rfl)⟩

/-- Claim C8: the four query parameters are set at construction and never
mutated — every operation leaves the instance state unchanged, so a
repeated call on the post-state behaves exactly like the first call. -/
theorem C8_parameters_immutable (f : Fetcher) (http : String → Json) (tz : Int)
    (event : String) (b : Bool) :
    (f._get http tz event b).post = f ∧
    (f.get_historical http tz b).post = f ∧
    (f.get_dividends http tz b).post = f ∧
    (f.get_splits http tz b).post = f ∧
    (f.get_historical http tz b).post.get_historical http tz b = f.get_historical http tz b ∧
    (f.get_dividends http tz b).post.get_dividends http tz b = f.get_dividends http tz b ∧
    (f.get_splits http tz b).post.get_splits http tz b = f.get_splits http tz b := by
  refine ⟨get_post f http tz event b, get_post f http tz "history" b,
    get_post f http tz "div" b, get_post f http tz "split" b, ?_, ?_, ?_⟩
  · rw [show (f.get_historical http tz b).post = f from get_post f http tz "history" b]
  · rw [show (f.get_dividends http tz b).post = f from get_post f http tz "div" b]
  · rw [show (f.get_splits http tz b).post = f from get_post f http tz "split" b]

/-- Claim C9: constructing a client with an interval outside the accepted
enumeration succeeds (the constructor is total and stores the string
unvalidated); the invalid-interval error is raised only when a fetch
operation runs, before any network activity. -/
theorem C9_bad_interval_accepted_at_construction (loadT now : ℚ) (ticker : String)
    (s : ℚ) (e : Option ℚ) (itv : String) (http : String → Json) (tz : Int) (b : Bool)
    (hbad : itv ∉ DATE_INTERVALS) :
    (Fetcher.init loadT now ticker s e (some itv)).interval = itv ∧
    (Fetcher.init loadT now ticker s e (some itv)).ticker = pyUpper ticker ∧
    ((Fetcher.init loadT now ticker s e (some itv)).get_historical http tz b).result =
      .error (.invalidInterval ("Incorrect interval: valid intervals are " ++
        String.intercalate ", " DATE_INTERVALS)) ∧
    ((Fetcher.init loadT now ticker s e (some itv)).get_historical http tz b).requests = [] := by
  refine ⟨rfl, rfl, ?_, ?_⟩ <;>
    rw [Fetcher.get_historical,
      get_invalid (Fetcher.init loadT now ticker s e (some itv)) http tz "history" b hbad]

/-- Witness for C9: a client built with interval "2x" stores it and fetch
defers the rejection. -/
theorem C9_bad_interval_accepted_at_construction_witness :
    ("2x" ∉ DATE_INTERVALS) ∧
    (Fetcher.init 0 0 "aapl" 0 none (some "2x")).interval = "2x" ∧
    ((Fetcher.init 0 0 "aapl" 0 none (some "2x")).get_historical
      (fun _ => Json.null) 0 true).requests = [] := by
  have h := C9_bad_interval_accepted_at_construction 0 0 "aapl" 0 none "2x"
    (fun _ => Json.null) 0 true (by decide)
  exact ⟨by decide, h.1, h.2.2.2⟩

/-- Claim C10: the Date strings are derived under the UTC epoch convention —
the normalization's outcome is independent of the environment's local
timezone, and on success row i's Date is exactly the UTC calendar-date
string of the i-th timestamp. -/
theorem C10_utc_dates (tz1 tz2 : Int) (resp : Json) :
    conv_df tz1 resp = conv_df tz2 resp ∧
    (∀ df : DataFrame, conv_df tz1 resp = .ok df →
      ∃ tsCells o h l c v dateCol : List Cell,
        extractColumns resp = .ok (tsCells, o, h, l, c, v) ∧
        df.getCol "Date" = .ok dateCol ∧
        ∀ (i : Nat) (q : ℚ), tsCells.get? i = some (.num q) →
          dateCol.get? i = some (.str (strftimeYmd q))) := by
  constructor
  · rfl
  · intro df hdf
    rw [conv_df_bind] at hdf
    cases hext : extractColumns resp with
    | error e => rw [hext] at hdf; cases hdf
    | ok t =>
      rw [hext] at hdf
      simp only [Except.bind] at hdf
      obtain ⟨ts, o, h, l, c, v⟩ := t
      obtain ⟨timeCol, dateCol, hdt, hsf, hlo, hlh, hll, hlc, hlv, hdfeq⟩ :=
        buildFrame_ok tz1 ts o h l c v df hdf
      refine ⟨ts, o, h, l, c, v, dateCol, rfl, ?_, ?_⟩
      · rw [hdfeq]; rfl
      · intro i q hq
        obtain ⟨b, hb, hbt⟩ := mapExcept_ok_get cellToDatetime ts timeCol hdt i _ hq
        have hbdt : b = Cell.dt q := by
          simp [cellToDatetime] at hb
          exact hb.symm
        subst hbdt
        obtain ⟨b2, hb2, hb2t⟩ := mapExcept_ok_get cellStrftime timeCol dateCol hsf i _ hbt
        have hb2s : b2 = Cell.str (strftimeYmd q) := by
          simp [cellStrftime] at hb2
          exact hb2.symm
        subst hb2s
        exact hb2t

/-- Witness for C10: on the sample response the outcome is the same under
two different ambient timezones, and each Date entry is the UTC date of its
timestamp. -/
theorem C10_utc_dates_witness :
    conv_df 0 sampleResp = conv_df 5 sampleResp ∧
    (∃ tsCells o h l c v dateCol : List Cell,
      extractColumns sampleResp = .ok (tsCells, o, h, l, c, v) ∧
      DataFrame.getCol ⟨sampleCols⟩ "Date" = .ok dateCol ∧
      ∀ (i : Nat) (q : ℚ), tsCells.get? i = some (.num q) →
        dateCol.get? i = some (.str (strftimeYmd q))) := by
  have h := C10_utc_dates 0 5 sampleResp
  exact ⟨h.1, h.2 ⟨sampleCols⟩ (by rfl)⟩

end YahooHistorical
